import Mathlib

/-!
Verification of the Cortex Mentor VS Code extension (cortex-vs).

Shallow embedding of:
- the Transport Client and Message Router of src/extension.ts
  (module-level nullable WebSocket handle, connect/disconnect commands,
  the open/message/close/error event handlers, and the status-bar item);
- the Insight Sink of the ChatViewProvider revision with a pending queue
  (addInsight, setConnectionStatus, resolveWebviewView flush loop,
  loadHistory, and the webviewLoaded message case);
- the legacy ChatViewProvider of src/ChatViewProvider.ts, which has no
  queue field;
- the History Store contract (save/load), whose command handlers are not
  part of the sources at hand and are therefore modelled from the spec.

Effects on the outside world (postMessage calls to the webview, socket
construction, OS audio playback, log lines) are made observable as fields
of explicit state records / effect records.
-/

/-! ## Transport Client (src/extension.ts) -/

/-- A live WebSocket handle.  The ws library makes close() idempotent on a
handle: requesting close on an already-closing socket is a no-op, which we
record with a single flag. -/
structure SocketHandle where
  closeRequested : Bool
deriving DecidableEq, Repr

/-- State of the Transport Client: the module-level nullable handle
`let ws: WebSocket | null = null`, the status-bar item fields, and a
counter of how many sockets have been constructed (observability of
`new WebSocket(...)`). -/
structure TransportState where
  ws : Option SocketHandle
  statusText : String
  tooltip : String
  command : String
  opened : Nat
deriving DecidableEq, Repr

/-- State right after activate() sets up the status bar, before the
automatic connect() call. -/
def initialTransportState : TransportState :=
  { ws := none
  , statusText := "$(plug) Cortex"
  , tooltip := "Cortex Mentor: Disconnected"
  , command := "cortex-vs.connect"
  , opened := 0 }

/-- The connect command: returns early if the handle is non-null,
otherwise updates the status bar to Connecting and constructs a socket. -/
def connect (st : TransportState) : TransportState :=
  if st.ws.isSome then
    st
  else
    { st with
      statusText := "$(sync~spin) Cortex"
    , tooltip := "Cortex Mentor: Connecting..."
    , ws := some { closeRequested := false }
    , opened := st.opened + 1 }

/-- The disconnect command: `if (ws) ws.close()`; nothing else. -/
def disconnect (st : TransportState) : TransportState :=
  match st.ws with
  | none => st
  | some h => { st with ws := some { h with closeRequested := true } }

/-- The open event handler: status bar becomes Connected and the item
command flips to cortex-vs.disconnect. -/
def onOpen (st : TransportState) : TransportState :=
  { st with
    statusText := "$(zap) Cortex"
  , tooltip := "Cortex Mentor: Connected"
  , command := "cortex-vs.disconnect" }

/-- The close event handler: status bar back to Disconnected, item command
back to cortex-vs.connect, and `ws = null`. -/
def onClose (st : TransportState) : TransportState :=
  { st with
    statusText := "$(plug) Cortex"
  , tooltip := "Cortex Mentor: Disconnected"
  , command := "cortex-vs.connect"
  , ws := none }

/-- The error event handler: status bar shows the error and the socket is
force-closed if the handle is non-null (the later close event will clear
it). -/
def onError (errMessage : String) (st : TransportState) : TransportState :=
  { st with
    statusText := "$(error) Cortex"
  , tooltip := "Cortex Mentor: Error - " ++ errMessage
  , ws := match st.ws with
          | none => none
          | some h => some { h with closeRequested := true } }

/-- The URL passed to the WebSocket constructor in connect().  The source
uses the literal ws://localhost:8000/ws and never reads the
cortex.backendUrl configuration value, so the configured value is an
ignored input here. -/
def connectUrl (_configuredBackendUrl : String) : String :=
  "ws://localhost:8000/ws"

/-- Default value of the cortex.backendUrl configuration option, as the
test suite inspects it (websocket.test.ts, Default backend URL test). -/
def defaultBackendUrl : String := "ws://localhost:8000/ws"

/-! ## Message Router (src/extension.ts, message event handler) -/

/-- A received frame: the handler distinguishes Buffer data from
everything else. -/
inductive WsData
  | binary (bytes : List Nat)
  | text (s : String)
deriving DecidableEq, Repr

/-- Observable outcome of one run of the message event handler. -/
structure RouterEffect where
  /-- Bytes handed to playAudio, when the frame was a Buffer. -/
  playedAudio : Option (List Nat)
  /-- (text, audio) pair handed to the Insight Sink, if any. -/
  forwardedToSink : Option (String × String)
  /-- Whether a log line was emitted. -/
  logged : Bool
  /-- Whether the handler let an exception escape to its caller. -/
  threw : Bool
deriving DecidableEq, Repr

/-- The message event handler: a Buffer is handed to playAudio; any other
frame is logged with toString() and otherwise ignored.  Neither branch
contains a throwing operation. -/
def onMessage : WsData → RouterEffect
  | WsData.binary b =>
      { playedAudio := some b, forwardedToSink := none, logged := true, threw := false }
  | WsData.text _ =>
      { playedAudio := none, forwardedToSink := none, logged := true, threw := false }

/-- The exact text frame of the C2 scenario, with type insight, text
Hello and empty audio. -/
def insightHelloFrame : String :=
  "\x7b\"type\":\"insight\",\"text\":\"Hello\",\"audio\":\"\"\x7d"

/-! ## Insight Sink: ChatViewProvider with pending queue (unnamed source,
the revision with _messageQueue and _isConnected) -/

/-- A queued insight: the `\x7b text, audio \x7d` record pushed onto
_messageQueue. -/
structure Insight where
  text : String
  audio : String
deriving DecidableEq, Repr

/-- An entry of the persisted chat history:
`\x7b text, audio, timestamp \x7d`. -/
structure HistoryEntry where
  text : String
  audio : String
  timestamp : String
deriving DecidableEq, Repr

/-- A message posted to the webview via webview.postMessage. -/
inductive WebviewMsg
  | addInsight (text audio : String)
  | statusUpdate (isConnected : Bool)
  | loadHistory (history : List HistoryEntry)
deriving DecidableEq, Repr

/-- State of the ChatViewProvider: whether _view is set, the pending
_messageQueue, the cached _isConnected flag, and the sequence of messages
posted to the webview so far (observability of postMessage; the
view.show(true) visibility side effect carries no data and is elided). -/
structure ProviderState where
  viewAttached : Bool
  messageQueue : List Insight
  isConnected : Bool
  posted : List WebviewMsg
deriving DecidableEq, Repr

/-- Provider state at construction time. -/
def initialProviderState : ProviderState :=
  { viewAttached := false, messageQueue := [], isConnected := false, posted := [] }

/-- addInsight(text, audioBase64): if the view is set, post an addInsight
message; otherwise push onto the pending queue. -/
def addInsight (text audio : String) (st : ProviderState) : ProviderState :=
  if st.viewAttached then
    { st with posted := st.posted ++ [WebviewMsg.addInsight text audio] }
  else
    { st with messageQueue := st.messageQueue ++ [{ text := text, audio := audio }] }

/-- setConnectionStatus(isConnected): always store the flag; post a
statusUpdate message only if the view is set. -/
def setConnectionStatus (b : Bool) (st : ProviderState) : ProviderState :=
  if st.viewAttached then
    { st with isConnected := b, posted := st.posted ++ [WebviewMsg.statusUpdate b] }
  else
    { st with isConnected := b }

/-- loadHistory(history): post a loadHistory message if the view is set. -/
def loadHistory (history : List HistoryEntry) (st : ProviderState) : ProviderState :=
  if st.viewAttached then
    { st with posted := st.posted ++ [WebviewMsg.loadHistory history] }
  else
    st

/-- The flush loop at the end of resolveWebviewView: while the queue is
non-empty, shift the front entry and feed it back through addInsight
(which now posts, since _view is set). -/
def flushLoop : List Insight → ProviderState → ProviderState
  | [], st => st
  | m :: rest, st =>
      flushLoop rest (addInsight m.text m.audio { st with messageQueue := rest })

/-- resolveWebviewView: store the view handle (html/options setup and the
message listener registration have no effect on this state), then flush
the pending queue. -/
def resolveWebviewView (st : ProviderState) : ProviderState :=
  let st1 := { st with viewAttached := true }
  flushLoop st1.messageQueue st1

/-- The webviewLoaded case of the onDidReceiveMessage listener: request a
history load (dispatch of the cortex.loadChatHistory command to the host,
modelled separately as the History Store), then re-send the cached
connection status via setConnectionStatus(this._isConnected). -/
def onWebviewLoaded (st : ProviderState) : ProviderState :=
  setConnectionStatus st.isConnected st

/-- Running a sequence of addInsight calls in order. -/
def runAddInsights (calls : List Insight) (st : ProviderState) : ProviderState :=
  calls.foldl (fun s m => addInsight m.text m.audio s) st

/-! ## Legacy ChatViewProvider (src/ChatViewProvider.ts): no queue field -/

/-- State of the legacy provider: only the optional view handle and the
posted messages; there is no queue field and no connection flag. -/
structure LegacyProviderState where
  viewAttached : Bool
  posted : List WebviewMsg
deriving DecidableEq, Repr

/-- Legacy provider state at construction time. -/
def initialLegacyState : LegacyProviderState :=
  { viewAttached := false, posted := [] }

/-- Legacy addInsight: posts when the view is set and otherwise does
nothing at all (no else branch in the source). -/
def legacyAddInsight (text audio : String) (st : LegacyProviderState) : LegacyProviderState :=
  if st.viewAttached then
    { st with posted := st.posted ++ [WebviewMsg.addInsight text audio] }
  else
    st

/-- Legacy resolveWebviewView: stores the view handle; there is no flush
loop. -/
def legacyResolveWebviewView (st : LegacyProviderState) : LegacyProviderState :=
  { st with viewAttached := true }

/-! ## History Store -/

/-- Modelled from the spec: the handlers of the cortex.saveChatHistory and
cortex.loadChatHistory commands (the History Store) are not among the
sources at hand — only their dispatch sites in the ChatViewProvider and
their registration tests are.  Per spec section 4.5, save replaces the
entire stored sequence in the host key-value persistence. -/
def HistoryStore.save (h : List HistoryEntry) (_store : Option (List HistoryEntry)) :
    Option (List HistoryEntry) :=
  some h

/-- Modelled from the spec: load returns the last saved sequence, or an
empty sequence if none exists (spec section 4.5). -/
def HistoryStore.load (store : Option (List HistoryEntry)) : List HistoryEntry :=
  store.getD []

/-! ## Helper lemmas -/

/-- With the view attached, addInsight only posts; the queue and the rest
of the state are untouched. -/
theorem addInsight_attached (t a : String) (st : ProviderState)
    (h : st.viewAttached = true) :
    addInsight t a st = { st with posted := st.posted ++ [WebviewMsg.addInsight t a] } := by
  simp [addInsight, h]

/-- The flush loop, run with the view attached on a state whose queue is
exactly the list being flushed, empties the queue and posts one addInsight
message per queued entry, in queue order. -/
theorem flushLoop_run (q : List Insight) : ∀ (st : ProviderState),
    st.viewAttached = true → st.messageQueue = q →
    flushLoop q st =
      { viewAttached := true
      , messageQueue := []
      , isConnected := st.isConnected
      , posted := st.posted ++ q.map (fun m => WebviewMsg.addInsight m.text m.audio) } := by
  induction q with
  | nil =>
    intro st hv hq
    obtain ⟨v, q0, c, p⟩ := st
    simp only at hv hq
    subst hv hq
    simp [flushLoop]
  | cons m rest ih =>
    intro st hv hq
    obtain ⟨v, q0, c, p⟩ := st
    simp only at hv hq
    subst hv hq
    simp only [flushLoop, addInsight_attached]
    rw [ih _ rfl rfl]
    simp

/-- A sequence of addInsight calls made with the view detached appends the
calls to the queue in order and posts nothing. -/
theorem runAddInsights_detached (calls : List Insight) : ∀ (st : ProviderState),
    st.viewAttached = false →
    runAddInsights calls st =
      { viewAttached := false
      , messageQueue := st.messageQueue ++ calls
      , isConnected := st.isConnected
      , posted := st.posted } := by
  induction calls with
  | nil =>
    intro st h
    obtain ⟨v, q0, c, p⟩ := st
    simp only at h
    subst h
    simp [runAddInsights]
  | cons m rest ih =>
    intro st h
    obtain ⟨v, q0, c, p⟩ := st
    simp only at h
    subst h
    show runAddInsights rest (addInsight m.text m.audio ⟨false, q0, c, p⟩) = _
    rw [ih _ (by simp [addInsight])]
    simp [addInsight]

/-! ## Claim theorems -/

/-- C1: every addInsight call made before the webview is attached appends
one entry to the pending queue (in call order, nothing posted yet); on
resolveWebviewView each queued entry is forwarded to the surface exactly
once, FIFO, leaving the queue empty; and insights arriving after
attachment bypass the queue and are forwarded immediately. -/
theorem pendingQueue_fifo_flush (calls : List Insight) :
    (runAddInsights calls initialProviderState).messageQueue = calls ∧
    (runAddInsights calls initialProviderState).posted = [] ∧
    (resolveWebviewView (runAddInsights calls initialProviderState)).messageQueue = [] ∧
    (resolveWebviewView (runAddInsights calls initialProviderState)).posted =
      calls.map (fun m => WebviewMsg.addInsight m.text m.audio) ∧
    ∀ t a : String,
      (addInsight t a (resolveWebviewView (runAddInsights calls initialProviderState))).posted =
        (resolveWebviewView (runAddInsights calls initialProviderState)).posted
          ++ [WebviewMsg.addInsight t a] ∧
      (addInsight t a
        (resolveWebviewView (runAddInsights calls initialProviderState))).messageQueue = [] := by
  have h1 : runAddInsights calls initialProviderState =
      { viewAttached := false, messageQueue := calls, isConnected := false, posted := [] } := by
    rw [runAddInsights_detached calls initialProviderState rfl]
    simp [initialProviderState]
  have h2 : resolveWebviewView (runAddInsights calls initialProviderState) =
      { viewAttached := true
      , messageQueue := []
      , isConnected := false
      , posted := calls.map (fun m => WebviewMsg.addInsight m.text m.audio) } := by
    rw [h1]
    show flushLoop calls _ = _
    rw [flushLoop_run calls _ rfl rfl]
    simp
  refine ⟨by rw [h1], by rw [h1], by rw [h2], by rw [h2], ?_⟩
  intro t a
  rw [h2]
  simp [addInsight]

/-- C2 evaluated on the code: the message event handler in extension.ts
hands Buffer frames to playAudio and merely logs every other frame, so the
text frame of the scenario is dropped and the Insight Sink receives
nothing — contradicting the claim that it receives the pair (Hello, empty
string). -/
theorem insightHello_dropped_by_router :
    onMessage (WsData.text insightHelloFrame) =
      { playedAudio := none, forwardedToSink := none, logged := true, threw := false } := rfl

/-- C3: connect() while a connection handle already exists is a no-op: the
state is unchanged and in particular no second socket is constructed. -/
theorem connect_noop_when_handle_present (st : TransportState)
    (h : st.ws.isSome = true) :
    connect st = st ∧ (connect st).opened = st.opened := by
  simp [connect, h]

/-- Witness for C3 at a concrete state with a live handle. -/
theorem connect_noop_when_handle_present_witness :
    connect (connect initialTransportState) = connect initialTransportState ∧
    (connect (connect initialTransportState)).opened =
      (connect initialTransportState).opened :=
  connect_noop_when_handle_present (connect initialTransportState) rfl

/-- C4: disconnect() with no connection handle is a no-op (and the guarded
body cannot throw); calling disconnect repeatedly has the same effect as
calling it once. -/
theorem disconnect_noop_and_idempotent (st : TransportState) :
    (st.ws = none → disconnect st = st) ∧
    disconnect (disconnect st) = disconnect st := by
  constructor
  · intro h
    simp [disconnect, h]
  · cases hw : st.ws with
    | none => simp [disconnect, hw]
    | some h => simp [disconnect, hw]

/-- Witness for C4 at the initial state, whose handle is null. -/
theorem disconnect_noop_and_idempotent_witness :
    disconnect initialTransportState = initialTransportState ∧
    disconnect (disconnect initialTransportState) = disconnect initialTransportState :=
  ⟨(disconnect_noop_and_idempotent initialTransportState).1 rfl,
   (disconnect_noop_and_idempotent initialTransportState).2⟩

/-- C5: after any close event — also one following an error event — the
status bar shows Disconnected and the handle is null, so a subsequent
connect() constructs a new socket. -/
theorem close_resets_to_disconnected (st : TransportState) (e : String) :
    (onClose st).ws = none ∧
    (onClose st).tooltip = "Cortex Mentor: Disconnected" ∧
    (onClose st).statusText = "$(plug) Cortex" ∧
    (onClose (onError e st)).ws = none ∧
    (onClose (onError e st)).tooltip = "Cortex Mentor: Disconnected" ∧
    (connect (onClose st)).ws.isSome = true ∧
    (connect (onClose st)).opened = st.opened + 1 := by
  simp [onClose, onError, connect]

/-- C6: a non-binary frame — in particular one whose payload is not valid
JSON — is logged and dropped by the message handler: nothing is forwarded
to the Insight Sink and no exception escapes to the caller. -/
theorem textFrame_never_forwarded_never_throws (s : String) :
    (onMessage (WsData.text s)).forwardedToSink = none ∧
    (onMessage (WsData.text s)).threw = false := by
  simp [onMessage]

/-- C7: save followed by load returns the saved sequence, order and all
fields preserved, for every prior store content and every history
(including the empty one). -/
theorem history_save_load_roundtrip (store : Option (List HistoryEntry))
    (history : List HistoryEntry) :
    HistoryStore.load (HistoryStore.save history store) = history := rfl

/-- C8: setConnectionStatus always caches the flag, sends nothing while no
surface is attached, and the webviewLoaded readiness signal re-sends the
last cached value to the surface. -/
theorem setConnectionStatus_caches_and_resends (b : Bool) (st : ProviderState) :
    (setConnectionStatus b st).isConnected = b ∧
    (st.viewAttached = false → (setConnectionStatus b st).posted = st.posted) ∧
    (st.viewAttached = true →
      (onWebviewLoaded st).posted = st.posted ++ [WebviewMsg.statusUpdate st.isConnected] ∧
      (onWebviewLoaded st).isConnected = st.isConnected) := by
  refine ⟨?_, fun h => ?_, fun h => ?_⟩
  · by_cases h : st.viewAttached <;> simp [setConnectionStatus, h]
  · simp [setConnectionStatus, h]
  · simp [onWebviewLoaded, setConnectionStatus, h]

/-- Witness for C8: a detached state caches without posting, and an
attached state re-sends the cached value on webviewLoaded. -/
theorem setConnectionStatus_caches_and_resends_witness :
    (setConnectionStatus true initialProviderState).isConnected = true ∧
    (setConnectionStatus true initialProviderState).posted = initialProviderState.posted ∧
    (onWebviewLoaded (resolveWebviewView initialProviderState)).posted =
      (resolveWebviewView initialProviderState).posted
        ++ [WebviewMsg.statusUpdate (resolveWebviewView initialProviderState).isConnected] :=
  ⟨(setConnectionStatus_caches_and_resends true initialProviderState).1,
   (setConnectionStatus_caches_and_resends true initialProviderState).2.1 rfl,
   ((setConnectionStatus_caches_and_resends true (resolveWebviewView initialProviderState)).2.2
      rfl).1⟩

/-- C9 evaluated on the code: connect() passes the fixed literal
ws://localhost:8000/ws to the WebSocket constructor, ignoring the
configured cortex.backendUrl value — so for the overridden URL
ws://custom:9000/ws (the very value the repository test suite uses) the
opened URL differs from the configured one. -/
theorem connect_ignores_configured_url :
    connectUrl "ws://custom:9000/ws" = "ws://localhost:8000/ws" ∧
    defaultBackendUrl = "ws://localhost:8000/ws" ∧
    "ws://custom:9000/ws" ≠ "ws://localhost:8000/ws" := by
  refine ⟨rfl, rfl, ?_⟩
  decide

/-- C10: in the legacy ChatViewProvider, addInsight before the webview is
resolved leaves the provider state completely unchanged — the insight is
silently discarded and is not rendered after attachment. -/
theorem legacyAddInsight_discards_before_attach (t a : String)
    (st : LegacyProviderState) (h : st.viewAttached = false) :
    legacyAddInsight t a st = st ∧
    (legacyResolveWebviewView (legacyAddInsight t a st)).posted = st.posted := by
  simp [legacyAddInsight, legacyResolveWebviewView, h]

/-- Witness for C10 at the freshly constructed legacy provider. -/
theorem legacyAddInsight_discards_before_attach_witness :
    legacyAddInsight "Hi" "QUJD" initialLegacyState = initialLegacyState ∧
    (legacyResolveWebviewView (legacyAddInsight "Hi" "QUJD" initialLegacyState)).posted =
      initialLegacyState.posted :=
  legacyAddInsight_discards_before_attach "Hi" "QUJD" initialLegacyState rfl
